import Mathlib

/-!
Shallow embedding of the Speech Utility App (src/app.py and
src/speech_recognition.py).

Library calls (streamlit, whisper, pyttsx3, sounddevice, tempfile) are
modelled as explicit oracle arguments: an exception raised by a library
call is an `Except.error` carrying the exception's message, and the
Python `try/except` blocks become matches on that oracle.  UI messages
emitted through streamlit (`st.info`, `st.warning`, `st.error`,
`st.success`, `st.write`) are collected into a list of `Msg`.  File
system effects of `tempfile.NamedTemporaryFile` / `os.unlink` are
recorded as the lists of paths created during the call and of paths
still existing when the call returns.
-/

/-- A UI message emitted through the streamlit API during one call. -/
inductive Msg
  | info (s : String)
  | warning (s : String)
  | error (s : String)
  | success (s : String)
  | write (s : String)
  deriving DecidableEq

/-- An uploaded audio file: its client-side name (with extension) and raw bytes. -/
structure UploadedFile where
  name : String
  content : List Nat
  deriving DecidableEq

/-- Model of CPython `str.strip()` with no argument: remove leading and
trailing whitespace characters. -/
def pyStrip (s : String) : String :=
  String.mk (((s.data.dropWhile Char.isWhitespace).reverse.dropWhile
    Char.isWhitespace).reverse)

/-- One call through the `st.cache_resource` decorator: the value returned to the
caller, the cache after the call, and whether the decorated body was executed. -/
structure CacheCall (α : Type) where
  result : α
  cache : Option α
  computed : Bool

/-- Model of the `st.cache_resource` decorator (both files use it on the model
loader): on a cache miss the body runs and its value is stored; on a hit the
stored handle is returned unchanged and the body does not run. -/
def cache_resource_call (α : Type) (cache : Option α) (compute : α) : CacheCall α :=
  match cache with
  | some h => ⟨h, some h, false⟩
  | none => ⟨compute, some compute, true⟩

/-- Model of `load_whisper_model` (identical in both files): the decorated body
is `whisper.load_model("tiny")`, abstracted as the oracle `wl` applied to the
model name `"tiny"`. -/
def load_whisper_model (α : Type) (wl : String → α) (cache : Option α) : CacheCall α :=
  cache_resource_call α cache (wl "tiny")

/-- Cache state of the loader after `n` calls in one process (empty at start). -/
def loaderState (α : Type) (wl : String → α) : Nat → Option α
  | 0 => none
  | n + 1 => (load_whisper_model α wl (loaderState α wl n)).cache

/-- The handle returned by the `n`-th call (0-based) to `load_whisper_model`. -/
def loaderCall (α : Type) (wl : String → α) (n : Nat) : α :=
  (load_whisper_model α wl (loaderState α wl n)).result

/-- Whether the `n`-th call to `load_whisper_model` executed the decorated body. -/
def loaderComputed (α : Type) (wl : String → α) (n : Nat) : Bool :=
  (load_whisper_model α wl (loaderState α wl n)).computed

namespace App

def noAudioMsg : String := "No audio uploaded. Please upload an audio file."

def transcribingMsg : String := "⏳ Transcribing..."

def transcribedMsg (t : String) : String := "📝 Transcribed Text: " ++ t

def transcribeErrMsg (e : String) : String := "Error transcribing audio: " ++ e

/-- Result of one call to `transcribe_uploaded_audio`: the returned string, the
streamlit messages, the temp files created during the call, and the temp files
still existing on disk when the call returns. -/
structure UploadOutcome where
  text : String
  msgs : List Msg
  created : List String
  leftoverFiles : List String

/-- Model of app.py `transcribe_uploaded_audio`.  `oracle` is the outcome of
`model.transcribe(...)` followed by `result["text"]` (`Except.error` when the
call raises); `tmpBase` is the fresh base name chosen by
`tempfile.NamedTemporaryFile`, to which the fixed `suffix='.wav'` is appended.
On the success path the file is removed by `os.unlink` before returning; when
`model.transcribe` raises, control jumps to the `except` branch, which returns
without unlinking, so the temp file is still on disk. -/
def transcribe_uploaded_audio (oracle : Except String String)
    (audio_file : Option UploadedFile) (tmpBase : String) : UploadOutcome :=
  match audio_file with
  | none => ⟨ "", [Msg.warning noAudioMsg], [], []⟩
  | some _ =>
    let tmp := tmpBase ++ ".wav"
    match oracle with
    | Except.ok raw =>
        ⟨ pyStrip raw,
          [Msg.info transcribingMsg, Msg.write (transcribedMsg (pyStrip raw))],
          [tmp], []⟩
    | Except.error e =>
        ⟨ "", [Msg.info transcribingMsg, Msg.error (transcribeErrMsg e)],
          [tmp], [tmp]⟩

/-- The part of the f-string in `get_audio_player_html` that precedes the
interpolated `{text}` (Python's `{{`/`}}` escapes resolved to literal braces). -/
def audioPlayerTplBefore : String :=
  "\n    <script>\n        function speakText() \x7b\n            const text = \""

/-- The part of the f-string in `get_audio_player_html` that follows the
interpolated `{text}`. -/
def audioPlayerTplAfter : String :=
  "\";\n            const utterance = new SpeechSynthesisUtterance(text);\n            window.speechSynthesis.speak(utterance);\n        \x7d\n    </script>\n    <button onclick=\"speakText()\" style=\"background-color:#4CAF50;color:white;padding:10px;border:none;border-radius:5px;cursor:pointer;\">\n        🔊 Speak Text (Browser TTS)\n    </button>\n    "

/-- Model of app.py `get_audio_player_html`: the f-string interpolates the
user-entered text verbatim between the two template halves. -/
def get_audio_player_html (text : String) : String :=
  audioPlayerTplBefore ++ text ++ audioPlayerTplAfter

/-- Escaping of one character for a double-quoted JavaScript string literal.
Follows the spec's words: user-supplied text must be escaped before being
embedded in markup/script contexts, so the characters that can terminate the
literal (the double quote and the backslash) are backslash-escaped. -/
def jsEscChar (c : Char) : List Char :=
  if c = '"' ∨ c = '\\' then ['\\', c] else [c]

/-- Escaping of a string for a double-quoted JavaScript string literal,
following the spec's words (see `jsEscChar`); used to compare the markup the
code actually produces with a safely escaped embedding. -/
def jsStringEscape (s : String) : String :=
  String.mk (s.data.flatMap jsEscChar)

/-- Model of CPython `str.split()` with no separator (as used in
`len(user_text.split())`): skip runs of whitespace, collect maximal runs of
non-whitespace characters.  `acc` holds the current word, reversed. -/
def pySplitAux : List Char → List Char → List (List Char)
  | [], [] => []
  | [], a :: rest => [(a :: rest).reverse]
  | c :: cs, acc =>
    if c.isWhitespace then
      match acc with
      | [] => pySplitAux cs []
      | a :: rest => (a :: rest).reverse :: pySplitAux cs []
    else
      pySplitAux cs (c :: acc)

/-- `s.split()` of CPython on a list of characters. -/
def pySplit (l : List Char) : List (List Char) := pySplitAux l []

/-- Model of the word count computed in app.py `main` tab 2:
`len(user_text.split())`. -/
def word_count (t : String) : Nat := (pySplit t.data).length

/-- Model of the word-count display in app.py `main` tab 2: the count is shown
(via `st.info`) only when the entered text is non-empty (`if user_text:`). -/
def tts_display (t : String) : Option Nat :=
  if t = "" then none else some (word_count t)

/-- Spec-side definition: the number of whitespace-separated tokens of a text,
counted as the number of maximal runs of non-whitespace characters.  `prevWs`
records whether the previous position was a whitespace character (or the start
of the string), i.e. whether a non-whitespace character starts a new token. -/
def countTokensAux : List Char → Bool → Nat
  | [], _ => 0
  | c :: cs, prevWs =>
    if c.isWhitespace then countTokensAux cs true
    else (if prevWs then 1 else 0) + countTokensAux cs false

/-- Spec-side definition: number of whitespace-separated tokens in a text. -/
def whitespaceTokenCount (t : String) : Nat := countTokensAux t.data true

/-- One user interaction with app.py `main` tab 1: either a script rerun on
which the Transcribe button is not pressed (session state untouched), or a
press of the Transcribe button with an uploaded file present, carrying the
outcome the whisper model produces for that file. -/
inductive Action
  | rerun
  | click (f : UploadedFile) (tmpBase : String) (oracle : Except String String)

/-- Effect of one UI action on `st.session_state.transcribed_text` (app.py
lines 101-103: the button handler stores the value returned by
`transcribe_uploaded_audio`). -/
def step (s : String) : Action → String
  | Action.rerun => s
  | Action.click f base oracle => (transcribe_uploaded_audio oracle (some f) base).text

/-- `st.session_state.transcribed_text` after a sequence of UI actions,
starting from the initial value `""` set in `main`. -/
def runActions (acts : List Action) : String := acts.foldl step ""

/-- Spec-side fold: the output of the most recent successful transcription
attempt in the action sequence, if any. -/
def lastSuccessStep (acc : Option String) : Action → Option String
  | Action.rerun => acc
  | Action.click _ _ (Except.ok raw) => some (pyStrip raw)
  | Action.click _ _ (Except.error _) => acc

/-- The output of the most recent successful transcription attempt, if any. -/
def lastSuccessfulTranscription (acts : List Action) : Option String :=
  acts.foldl lastSuccessStep none

/-- Fold computing the result of the most recent transcription attempt, where
a failed attempt yields the empty string (`""` before any attempt). -/
def attemptStep (s : String) : Action → String
  | Action.rerun => s
  | Action.click _ _ (Except.ok raw) => pyStrip raw
  | Action.click _ _ (Except.error _) => ""

/-- The result of the most recent transcription attempt (empty if it failed or
if there was none). -/
def lastAttemptResult (acts : List Action) : String := acts.foldl attemptStep ""

end App

namespace SR

def recInfoMsg : String := "🎤 Recording... Speak now!"

def recDoneMsg : String := "✅ Recording complete!"

def recErrMsg (e : String) : String := "Error recording audio: " ++ e

def noAudioMsg : String := "No audio recorded. Please try again."

def transcribingMsg : String := "⏳ Transcribing..."

def transcribedMsg (t : String) : String := "📝 Transcribed Text: " ++ t

def transcribeErrMsg (e : String) : String := "Error transcribing audio: " ++ e

def noTextMsg : String := "No text to speak. Please enter some text."

def speakingMsg : String := "🔊 Speaking..."

def speechDoneMsg : String := "Speech completed!"

def speakErrMsg (e : String) : String := "Error speaking text: " ++ e

/-- Model of `sounddevice.rec(frames, samplerate, channels=1)` on success,
from the library's contract: it yields an array of shape `(frames, 1)` whose
rows are single samples drawn from the microphone stream. -/
def sd_rec (α : Type) (frames : Nat) (stream : Nat → α) : List (List α) :=
  (List.range frames).map (fun i => [stream i])

/-- Model of `np.squeeze` on an `(n, 1)`-shaped array: drop the singleton
channel axis, keeping the `n` samples. -/
def np_squeeze (α : Type) (a : List (List α)) : List α := a.flatten

/-- Model of speech_recognition.py `record_audio`.  `dev` is the recording
device: on success it supplies the microphone sample stream, and
`sd.rec(int(duration * samplerate), ...)` fills a buffer of exactly
`duration * samplerate` frames from it; `Except.error` models `sd.rec`/`sd.wait`
raising, in which case the `except` branch reports the error and returns
`None`.  `st.info` is emitted before the device call, as in the source. -/
def record_audio (α : Type) (dev : Except String (Nat → α))
    (duration : Nat) (samplerate : Nat) : Option (List α) × List Msg :=
  match dev with
  | Except.error e => (none, [Msg.info recInfoMsg, Msg.error (recErrMsg e)])
  | Except.ok stream =>
      (some (np_squeeze α (sd_rec α (duration * samplerate) stream)),
        [Msg.info recInfoMsg, Msg.success recDoneMsg])

/-- `record_audio` with the source's default arguments `duration=5`,
`samplerate=16000` (how `main` calls it). -/
def record_audio_default (α : Type) (dev : Except String (Nat → α)) :
    Option (List α) × List Msg :=
  record_audio α dev 5 16000

/-- Model of speech_recognition.py `transcribe_audio`: empty result plus
warning when `audio is None`; otherwise `model.transcribe(audio)` is attempted
once (`oracle`), its text is stripped on success, and a raised exception is
caught and converted to an empty result plus an error message. -/
def transcribe_audio (α : Type) (oracle : Except String String)
    (audio : Option (List α)) : String × List Msg :=
  match audio with
  | none => ("", [Msg.warning noAudioMsg])
  | some _ =>
    match oracle with
    | Except.ok raw =>
        (pyStrip raw,
          [Msg.info transcribingMsg, Msg.write (transcribedMsg (pyStrip raw))])
    | Except.error e =>
        ("", [Msg.info transcribingMsg, Msg.error (transcribeErrMsg e)])

/-- A call observed on the pyttsx3 engine. -/
inductive EngineCall
  | say (t : String)
  | runAndWait
  deriving DecidableEq

/-- Model of speech_recognition.py `speak_text`.  The first component is the
trace of calls made on the synthesis engine, in order; `sayO` and `runO` are
the outcomes of `engine.say` and `engine.runAndWait` (an `Except.error` models
the call raising after being invoked, caught by the `except` branch).  Python's
`if not text:` is true exactly when the string is empty. -/
def speak_text (sayO : Except String Unit) (runO : Except String Unit)
    (text : String) : List EngineCall × List Msg :=
  if text = "" then ([], [Msg.warning noTextMsg])
  else
    match sayO with
    | Except.error e =>
        ([EngineCall.say text], [Msg.info speakingMsg, Msg.error (speakErrMsg e)])
    | Except.ok _ =>
      match runO with
      | Except.error e =>
          ([EngineCall.say text, EngineCall.runAndWait],
            [Msg.info speakingMsg, Msg.error (speakErrMsg e)])
      | Except.ok _ =>
          ([EngineCall.say text, EngineCall.runAndWait],
            [Msg.info speakingMsg, Msg.success speechDoneMsg])

end SR

/-- A concrete uploaded file used in counterexamples. -/
def sampleFile : UploadedFile := ⟨ "a.wav", []⟩

/-! ## Helper lemmas -/

theorem flatten_map_singleton_length (α β : Type) (f : α → β) :
    ∀ l : List α, ((l.map (fun i => [f i])).flatten).length = l.length := by
  intro l
  induction l with
  | nil => simp
  | cons a t ih => simp [ih]

theorem pySplitAux_length :
    ∀ (l acc : List Char),
      (App.pySplitAux l acc).length =
        App.countTokensAux l acc.isEmpty + (if acc.isEmpty then 0 else 1) := by
  intro l
  induction l with
  | nil =>
    intro acc
    cases acc with
    | nil => simp [App.pySplitAux, App.countTokensAux]
    | cons a rest => simp [App.pySplitAux, App.countTokensAux]
  | cons c cs ih =>
    intro acc
    cases hw : c.isWhitespace with
    | true =>
      cases acc with
      | nil => simp [App.pySplitAux, App.countTokensAux, hw, ih]
      | cons a rest =>
        simp [App.pySplitAux, App.countTokensAux, hw, ih]
    | false =>
      cases acc with
      | nil =>
        simp [App.pySplitAux, App.countTokensAux, hw, ih]
        omega
      | cons a rest =>
        simp [App.pySplitAux, App.countTokensAux, hw, ih]

theorem app_step_eq_attemptStep (s : String) (a : App.Action) :
    App.step s a = App.attemptStep s a := by
  cases a with
  | rerun => rfl
  | click f base oracle => cases oracle <;> rfl

theorem app_foldl_step_eq :
    ∀ (acts : List App.Action) (s : String),
      List.foldl App.step s acts = List.foldl App.attemptStep s acts := by
  intro acts
  induction acts with
  | nil => intro s; rfl
  | cons a t ih =>
    intro s
    simp only [List.foldl_cons, app_step_eq_attemptStep, ih]

theorem loaderState_succ_eq (α : Type) (wl : String → α) :
    ∀ n, loaderState α wl (n + 1) = some (wl "tiny") := by
  intro n
  induction n with
  | zero => rfl
  | succ k ih =>
    show (load_whisper_model α wl (loaderState α wl (k + 1))).cache = some (wl "tiny")
    rw [ih]
    rfl

theorem loaderCall_eq_model (α : Type) (wl : String → α) :
    ∀ n, loaderCall α wl n = wl "tiny" := by
  intro n
  cases n with
  | zero => rfl
  | succ k =>
    simp [loaderCall, load_whisper_model, cache_resource_call, loaderState_succ_eq]

/-! ## Claim theorems -/

/-- C1 (code_bug evidence): `get_audio_player_html` embeds the user-entered
text verbatim between the two template halves, with no escaping: on the input
`";alert(1);//` the double quote from the text closes the JavaScript string
literal `const text = "..."` and the rest of the input sits in script position,
so the text is not embedded only as safely escaped data.  A safe escaping of
this input (`jsStringEscape`) would alter it, and the markup the code produces
differs from the safely escaped embedding. -/
theorem c1_unescaped_embedding :
    App.get_audio_player_html "\";alert(1);//" =
        App.audioPlayerTplBefore ++ "\";alert(1);//" ++ App.audioPlayerTplAfter
      ∧ App.jsStringEscape "\";alert(1);//" ≠ "\";alert(1);//"
      ∧ App.get_audio_player_html "\";alert(1);//" ≠
          App.audioPlayerTplBefore ++ App.jsStringEscape "\";alert(1);//"
            ++ App.audioPlayerTplAfter := by
  refine ⟨rfl, by decide, by decide⟩

/-- C2 (counterexample): after a successful transcription of "hello" followed
by a failed transcription attempt, the stored `transcribed_text` is `""`, while
the output of the most recent successful transcription attempt is `"hello"`;
so the stored text is not the output of the most recent successful attempt. -/
theorem c2_counterexample :
    App.lastSuccessfulTranscription
        [App.Action.click sampleFile "tmp1" (Except.ok "hello"),
         App.Action.click sampleFile "tmp2" (Except.error "boom")] = some "hello"
      ∧ App.runActions
          [App.Action.click sampleFile "tmp1" (Except.ok "hello"),
           App.Action.click sampleFile "tmp2" (Except.error "boom")] = ""
      ∧ ("hello" : String) ≠ "" := by
  refine ⟨by decide, by decide, by decide⟩

/-- C2 (amended): after every sequence of UI actions, the stored
`st.session_state.transcribed_text` is the result of the most recent
transcription attempt — the stripped model output if that attempt succeeded and
the empty string if it failed — and `""` before any attempt. -/
theorem c2_amended_last_attempt (acts : List App.Action) :
    App.runActions acts = App.lastAttemptResult acts := by
  simpa [App.runActions, App.lastAttemptResult] using app_foldl_step_eq acts ""

/-- C3: the Transcription Service (app.py `transcribe_uploaded_audio` and
speech_recognition.py `transcribe_audio`) returns the model text with leading
and trailing whitespace stripped on success, the empty string when the model
call raises, and the empty string plus a warning when there is no input; in the
no-input case the functions return normally for every oracle outcome (the
shallow embedding is total: exceptions are confined to the oracles and caught
by the modelled `except` branches). -/
theorem c3_transcription_service (raw e base : String) (f : UploadedFile)
    (o : Except String String) (a : List Int) :
    (App.transcribe_uploaded_audio (Except.ok raw) (some f) base).text = pyStrip raw
      ∧ (SR.transcribe_audio Int (Except.ok raw) (some a)).fst = pyStrip raw
      ∧ (App.transcribe_uploaded_audio (Except.error e) (some f) base).text = ""
      ∧ (SR.transcribe_audio Int (Except.error e) (some a)).fst = ""
      ∧ (App.transcribe_uploaded_audio o none base).text = ""
      ∧ (SR.transcribe_audio Int o none).fst = ""
      ∧ Msg.warning App.noAudioMsg ∈ (App.transcribe_uploaded_audio o none base).msgs
      ∧ Msg.warning SR.noAudioMsg ∈ (SR.transcribe_audio Int o none).snd := by
  refine ⟨rfl, rfl, rfl, rfl, rfl, rfl, ?_, ?_⟩ <;>
    simp [App.transcribe_uploaded_audio, SR.transcribe_audio]

/-- C4: when the recording device call raises, `record_audio` catches the
error, returns `None`, and reports the failure as a visible error message; the
modelled function returns normally (the exception is caught by the `except`
branch), so the failure never escapes to the process. -/
theorem c4_record_audio_failure (α : Type) (e : String) (d r : Nat) :
    (SR.record_audio α (Except.error e) d r).fst = none
      ∧ Msg.error (SR.recErrMsg e) ∈ (SR.record_audio α (Except.error e) d r).snd := by
  exact ⟨rfl, by simp [SR.record_audio]⟩

/-- C5: every successful recording returns a buffer of exactly
`duration * samplerate` samples; with the source's default constants
`duration=5`, `samplerate=16000` (as `main` calls it) that is 80000 samples. -/
theorem c5_record_audio_sample_count (α : Type) (stream : Nat → α) (d r : Nat) :
    ((SR.record_audio α (Except.ok stream) d r).fst).map List.length = some (d * r)
      ∧ ((SR.record_audio_default α (Except.ok stream)).fst).map List.length
          = some 80000 := by
  constructor
  · show some ((SR.np_squeeze α (SR.sd_rec α (d * r) stream)).length) = some (d * r)
    rw [SR.np_squeeze, SR.sd_rec, flatten_map_singleton_length, List.length_range]
  · show some ((SR.np_squeeze α (SR.sd_rec α (5 * 16000) stream)).length) = some 80000
    rw [SR.np_squeeze, SR.sd_rec, flatten_map_singleton_length, List.length_range]

/-- C6: `speak_text` on empty text makes no call on the synthesis engine and
surfaces a warning; on non-empty text it invokes the synthesis path exactly
once: `engine.say` is called exactly once, and `engine.runAndWait` is called
exactly once right after it whenever `engine.say` did not itself raise (when
`engine.say` raises, the trace is the single `say` call). -/
theorem c6_speak_text (sayO runO : Except String Unit) (e t : String)
    (ht : t ≠ "") :
    (SR.speak_text sayO runO "").fst = []
      ∧ Msg.warning SR.noTextMsg ∈ (SR.speak_text sayO runO "").snd
      ∧ (SR.speak_text (Except.ok ()) runO t).fst =
          [SR.EngineCall.say t, SR.EngineCall.runAndWait]
      ∧ (SR.speak_text (Except.error e) runO t).fst = [SR.EngineCall.say t] := by
  refine ⟨by simp [SR.speak_text], by simp [SR.speak_text], ?_, ?_⟩
  · cases runO <;> simp [SR.speak_text, ht]
  · simp [SR.speak_text, ht]

/-- C6 witness: `c6_speak_text` applied at the concrete text "hello" with a
non-raising engine. -/
theorem c6_speak_text_witness :
    (SR.speak_text (Except.ok ()) (Except.ok ()) "").fst = []
      ∧ (SR.speak_text (Except.ok ()) (Except.ok ()) "hello").fst =
          [SR.EngineCall.say "hello", SR.EngineCall.runAndWait] := by
  have h := c6_speak_text (Except.ok ()) (Except.ok ()) "boom" "hello" (by decide)
  exact ⟨h.1, h.2.2.1⟩

/-- C7: within one process, every pair of calls to the model loader returns the
same handle (the `st.cache_resource` cache is filled at the first call and hit
thereafter): the decorated body runs at call 0 and at no later call. -/
theorem c7_load_whisper_model_memoized (α : Type) (wl : String → α) (i j : Nat) :
    loaderCall α wl i = loaderCall α wl j
      ∧ loaderComputed α wl 0 = true
      ∧ loaderComputed α wl (j + 1) = false := by
  refine ⟨?_, rfl, ?_⟩
  · rw [loaderCall_eq_model, loaderCall_eq_model]
  · simp [loaderComputed, load_whisper_model, cache_resource_call,
      loaderState_succ_eq]

/-- C8 (counterexample): when `model.transcribe` raises, the `except` branch of
`transcribe_uploaded_audio` returns without reaching `os.unlink`, so the
temporary file created for the upload is still on disk after the call returns;
the claim that no file persists on every failure path is false. -/
theorem c8_counterexample :
    (App.transcribe_uploaded_audio (Except.error "boom") (some sampleFile)
        "/tmp/audio123").leftoverFiles = ["/tmp/audio123.wav"]
      ∧ (App.transcribe_uploaded_audio (Except.error "boom") (some sampleFile)
          "/tmp/audio123").leftoverFiles ≠ [] := by
  exact ⟨rfl, by decide⟩

/-- C8 (amended): the temporary file is deleted before returning on the success
path, and no file is created when no audio is uploaded; but when
`model.transcribe` raises, the temporary file persists after the call returns. -/
theorem c8_amended_temp_file (raw e base : String) (f : UploadedFile)
    (o : Except String String) :
    (App.transcribe_uploaded_audio (Except.ok raw) (some f) base).leftoverFiles = []
      ∧ (App.transcribe_uploaded_audio (Except.error e) (some f) base).leftoverFiles
          = [base ++ ".wav"]
      ∧ (App.transcribe_uploaded_audio o none base).created = []
      ∧ (App.transcribe_uploaded_audio o none base).leftoverFiles = [] := by
  refine ⟨rfl, rfl, ?_, ?_⟩ <;> cases o <;> rfl

/-- C10: whatever the uploaded file's name, extension and contents, the
temporary file created by `transcribe_uploaded_audio` is always the fresh base
name with the fixed suffix `.wav` appended (so its name is identical for any
two uploads handled with the same fresh base, and `.wav` is a suffix of it). -/
theorem c10_temp_suffix (o : Except String String) (name base : String)
    (content : List Nat) (f g : UploadedFile) :
    (App.transcribe_uploaded_audio o (some ⟨name, content⟩) base).created
        = [base ++ ".wav"]
      ∧ (App.transcribe_uploaded_audio o (some f) base).created
          = (App.transcribe_uploaded_audio o (some g) base).created
      ∧ ".wav".data <:+ (base ++ ".wav").data := by
  refine ⟨?_, ?_, ?_⟩
  · cases o <;> rfl
  · cases o <;> rfl
  · exact ⟨base.data, by simp⟩

/-- C9: for every entered text, the word count displayed in the text-to-speech
tab (shown only when the text is non-empty) equals the number of
whitespace-separated tokens of the text, i.e. the number of maximal runs of
non-whitespace characters; in particular "hello world" yields 2. -/
theorem c9_word_count (t : String) :
    App.tts_display t = (if t = "" then none else some (App.whitespaceTokenCount t))
      ∧ App.tts_display "hello world" = some 2 := by
  constructor
  · by_cases h : t = ""
    · simp [App.tts_display, h]
    · simp [App.tts_display, h, App.word_count, App.pySplit,
        App.whitespaceTokenCount, pySplitAux_length]
  · decide
